import Mathlib

/-!
Verification of the MiniGrid environment kernel
(`envpool/minigrid/impl/minigrid_env.cc`).

The grid layout convention of the source is kept throughout:
`grid y x` is the cell at column `x`, row `y` (the C++ `grid_[y][x]`),
positions are `(x, y)` pairs, `x` grows rightwards and `y` downwards.

The companion header `minigrid_env.h` (the `WorldObj` class, its capability
predicates and the enums) is not part of the translated sources; those
parts are modelled from the specification document and are marked
`Modelled from the spec:` in their doc comments.  Everything else is a
direct translation of `minigrid_env.cc`.
-/

namespace MiniGrid

/-- Modelled from the spec: the object-type enum
`{Empty, Wall, Floor, Door, Key, Ball, Box, Goal, Lava, Agent}` of the
missing header. -/
inductive Ty where
  | empty
  | wall
  | floor
  | door
  | key
  | ball
  | box
  | goal
  | lava
  | agent
deriving DecidableEq, Repr

/-- Modelled from the spec: the small color enum of the missing header,
with a distinguished default value used by the one-argument `WorldObj`
constructor. -/
inductive Color where
  | red
  | green
  | blue
  | purple
  | yellow
  | grey
  | unassigned
deriving DecidableEq, Repr

/-- Modelled from the spec: a `WorldObj` value holds a type, a color, the
door interaction state (locked, open) and an optional exclusively-owned
nested object (present only for boxes). -/
inductive WorldObj where
  | mk (ty : Ty) (color : Color) (doorLocked : Bool) (doorOpen : Bool)
      (contains : Option WorldObj)

namespace WorldObj

/-- `GetType()`. -/
def ty : WorldObj → Ty
  | .mk t _ _ _ _ => t

/-- `GetColor()`. -/
def color : WorldObj → Color
  | .mk _ c _ _ _ => c

/-- `GetDoorLocked()`. -/
def doorLocked : WorldObj → Bool
  | .mk _ _ l _ _ => l

/-- `GetDoorOpen()`. -/
def doorOpen : WorldObj → Bool
  | .mk _ _ _ o _ => o

/-- `GetContains()`. -/
def contains : WorldObj → Option WorldObj
  | .mk _ _ _ _ c => c

/-- Modelled from the spec: the one-argument constructor `WorldObj(type)`
of the missing header: default color, unlocked, closed, no contents. -/
def make (t : Ty) : WorldObj :=
  .mk t Color.unassigned false false none

/-- Modelled from the spec: `SetDoorOpen` of the missing header.  The spec
states that unlocking a locked door with the matching key "sets `open=true`
and clears `locked`", and the toggle branch of the source realises that
effect through the single call `SetDoorOpen(true)`, so opening a door
clears its lock. -/
def setDoorOpen (o : WorldObj) (b : Bool) : WorldObj :=
  .mk o.ty o.color (if b then false else o.doorLocked) b o.contains

/-- `SetContains`. -/
def setContains (o : WorldObj) (c : Option WorldObj) : WorldObj :=
  .mk o.ty o.color o.doorLocked o.doorOpen c

/-- Modelled from the spec: `CanOverlap()`: the agent may stand on empty
cells, floor, goal and lava, and on open doors; everything else is solid. -/
def canOverlap (o : WorldObj) : Bool :=
  match o.ty with
  | .empty => true
  | .floor => true
  | .goal => true
  | .lava => true
  | .door => o.doorOpen
  | _ => false

/-- Modelled from the spec: `CanPickup()`: keys, balls and boxes can be
carried. -/
def canPickup (o : WorldObj) : Bool :=
  match o.ty with
  | .key => true
  | .ball => true
  | .box => true
  | _ => false

/-- Modelled from the spec: `CanSeeBehind()`: walls and closed doors are
opaque; everything else lets sight through. -/
def canSeeBehind (o : WorldObj) : Bool :=
  match o.ty with
  | .wall => false
  | .door => o.doorOpen
  | _ => true

end WorldObj

/-- Modelled from the spec: the integer code of each object type
(channel 0 of the observation). -/
def typeCode : Ty → ℕ
  | .empty => 1
  | .wall => 2
  | .floor => 3
  | .door => 4
  | .key => 5
  | .ball => 6
  | .box => 7
  | .goal => 8
  | .lava => 9
  | .agent => 10

/-- Modelled from the spec: the integer code of each color
(channel 1 of the observation). -/
def colorCode : Color → ℕ
  | .red => 0
  | .green => 1
  | .blue => 2
  | .purple => 3
  | .yellow => 4
  | .grey => 5
  | .unassigned => 6

/-- Modelled from the spec: `GetState()`: "channel 2 = state code (door
lock/open, or 0 for non-door objects)"; a locked door codes 2, an open
door 0, a closed one 1. -/
def stateCode (o : WorldObj) : ℕ :=
  if o.ty = Ty.door then
    if o.doorLocked then 2 else if o.doorOpen then 0 else 1
  else 0

/-- The action enum of `MiniGridStep`. -/
inductive Act where
  | left
  | right
  | forward
  | pickup
  | drop
  | toggle
  | done
deriving DecidableEq, Repr

/-- The environment state of `MiniGridEnv`: grid dimensions, the grid
itself (a function `y ↦ x ↦ cell`, mirroring `grid_[y][x]`), the agent
position `(x, y)` and direction, the carried object, the step counter,
the termination latch, and the rendering parameters. -/
structure MiniGridState where
  width : ℤ
  height : ℤ
  grid : ℤ → ℤ → WorldObj
  agentPos : ℤ × ℤ
  agentDir : ℤ
  carrying : WorldObj
  stepCount : ℤ
  maxSteps : ℤ
  isDone : Bool
  agentViewSize : ℕ
  seeThroughWalls : Bool

/-- Overwrite the grid cell at row `y`, column `x`
(the assignment `grid_[y][x] = o`). -/
def setGrid (s : MiniGridState) (y x : ℤ) (o : WorldObj) : MiniGridState :=
  { s with grid := fun b a => if b = y ∧ a = x then o else s.grid b a }

/-- The forward-cell computation of `MiniGridStep`: the `switch` on
`agent_dir_`, whose `default` branch is the fatal `CHECK(false)`
(modelled as `none`). -/
def fwdPos (s : MiniGridState) : Option (ℤ × ℤ) :=
  if s.agentDir = 0 then some (s.agentPos.1 + 1, s.agentPos.2)
  else if s.agentDir = 1 then some (s.agentPos.1, s.agentPos.2 + 1)
  else if s.agentDir = 2 then some (s.agentPos.1 - 1, s.agentPos.2)
  else if s.agentDir = 3 then some (s.agentPos.1, s.agentPos.2 - 1)
  else none

/-- The goal reward `1 - 0.9 * (step_count / max_steps)`, in exact
rational arithmetic. -/
def goalReward (stepCount maxSteps : ℤ) : ℚ :=
  1 - 9 / 10 * ((stepCount : ℚ) / (maxSteps : ℚ))

/-- The action-dispatch of `MiniGridStep` (the `if/else` chain on `act`),
taken after the step counter was incremented and the forward cell `fwd`
was computed and bounds-checked; returns the updated state and the
reward. -/
def stepCore (s1 : MiniGridState) (fwd : ℤ × ℤ) (act : Act) :
    MiniGridState × ℚ :=
  match act with
  | .left =>
    let d := s1.agentDir - 1
    ({ s1 with agentDir := if d < 0 then d + 4 else d }, 0)
  | .right =>
    ({ s1 with agentDir := (s1.agentDir + 1) % 4 }, 0)
  | .forward =>
    let s2 := if (s1.grid fwd.2 fwd.1).canOverlap
              then { s1 with agentPos := fwd } else s1
    if (s2.grid fwd.2 fwd.1).ty = Ty.goal then
      ({ s2 with isDone := true }, goalReward s2.stepCount s2.maxSteps)
    else if (s2.grid fwd.2 fwd.1).ty = Ty.lava then
      ({ s2 with isDone := true }, 0)
    else (s2, 0)
  | .pickup =>
    if s1.carrying.ty = Ty.empty ∧ (s1.grid fwd.2 fwd.1).canPickup then
      (setGrid { s1 with carrying := s1.grid fwd.2 fwd.1 }
        fwd.2 fwd.1 (WorldObj.make .empty), 0)
    else (s1, 0)
  | .drop =>
    if s1.carrying.ty ≠ Ty.empty ∧ (s1.grid fwd.2 fwd.1).ty = Ty.empty then
      ({ setGrid s1 fwd.2 fwd.1 s1.carrying with
          carrying := WorldObj.make .empty }, 0)
    else (s1, 0)
  | .toggle =>
    let obj := s1.grid fwd.2 fwd.1
    if obj.ty = Ty.door then
      if obj.doorLocked then
        if s1.carrying.ty = Ty.key ∧ s1.carrying.color = obj.color then
          (setGrid s1 fwd.2 fwd.1 (obj.setDoorOpen true), 0)
        else (s1, 0)
      else
        (setGrid s1 fwd.2 fwd.1 (obj.setDoorOpen (!obj.doorOpen)), 0)
    else if obj.ty = Ty.box then
      match obj.contains with
      | some c => (setGrid s1 fwd.2 fwd.1 c, 0)
      | none => (setGrid s1 fwd.2 fwd.1 (WorldObj.make .empty), 0)
    else (s1, 0)
  | .done => (s1, 0)

/-- The trailing `step_count >= max_steps` check of `MiniGridStep`:
forces `done = true` without touching the reward already computed. -/
def stepWrap (r : MiniGridState × ℚ) : MiniGridState × ℚ :=
  if r.1.stepCount ≥ r.1.maxSteps then ({ r.1 with isDone := true }, r.2)
  else r

/-- `MiniGridEnv::MiniGridStep`.  Fatal `CHECK`s (invalid direction,
forward cell out of bounds) are modelled as `none`; otherwise the call
returns the successor state and the reward. -/
def miniGridStep (s0 : MiniGridState) (act : Act) : Option (MiniGridState × ℚ) :=
  let s1 := { s0 with stepCount := s0.stepCount + 1 }
  (fwdPos s1).bind fun fwd =>
    if 0 ≤ fwd.1 ∧ fwd.1 < s1.width ∧ 0 ≤ fwd.2 ∧ fwd.2 < s1.height then
      some (stepWrap (stepCore s1 fwd act))
    else none

/-- `MiniGridEnv::MiniGridReset`, taken after the external `GenGrid()` call
has populated the grid and the initial agent state: reset `step_count` and
`done`, then run the fatal postcondition `CHECK`s (modelled as `none`), and
finally clear the carried object. -/
def miniGridReset (s0 : MiniGridState) : Option MiniGridState :=
  let s := { s0 with stepCount := 0, isDone := false }
  if 0 ≤ s.agentPos.1 ∧ 0 ≤ s.agentPos.2 ∧ 0 ≤ s.agentDir ∧
      (s.grid s.agentPos.2 s.agentPos.1).canOverlap then
    some { s with carrying := WorldObj.make .empty }
  else none

/-- `MiniGridEnv::PlaceObject`'s rejection loop.  The RNG is modelled as
the stream of `(x, y)` pairs the two uniform distributions would produce;
the loop skips a draw whose cell is non-Empty or is the agent's position
and returns the first acceptable draw (`none` when the finite stream runs
out, standing for non-termination of the unbounded C++ loop). -/
def placeObjectLoop (s : MiniGridState) : List (ℤ × ℤ) → Option (ℤ × ℤ)
  | [] => none
  | (x, y) :: rest =>
    if (s.grid y x).ty ≠ Ty.empty then placeObjectLoop s rest
    else if s.agentPos.1 = x ∧ s.agentPos.2 = y then placeObjectLoop s rest
    else some (x, y)

/-- One counter-clockwise rotation of a square grid:
`copy[size-1-x][y] = old[y][x]`, i.e. the new row `r`, column `c` holds
the old row `c`, column `size-1-r`. -/
def rotateCCW {α : Type} (n : ℕ) (g : Fin n → Fin n → α) : Fin n → Fin n → α :=
  fun r c => g c r.rev

/-- The index tracking of `rotateCCW`: one application sends the output
index `(r, c)` to the input index `(c, size-1-r)`. -/
def rotStep {n : ℕ} (p : Fin n × Fin n) : Fin n × Fin n :=
  (p.2, p.1.rev)

/-- The viewport's top-left corner `(top_x, top_y)` in absolute grid
coordinates, one formula per direction; the `CHECK(false)` default branch
is `none`. -/
def topLeft (s : MiniGridState) : Option (ℤ × ℤ) :=
  let n : ℤ := (s.agentViewSize : ℤ)
  if s.agentDir = 0 then
    some (s.agentPos.1, s.agentPos.2 - (s.agentViewSize / 2 : ℕ))
  else if s.agentDir = 1 then
    some (s.agentPos.1 - (s.agentViewSize / 2 : ℕ), s.agentPos.2)
  else if s.agentDir = 2 then
    some (s.agentPos.1 - n + 1, s.agentPos.2 - (s.agentViewSize / 2 : ℕ))
  else if s.agentDir = 3 then
    some (s.agentPos.1 - (s.agentViewSize / 2 : ℕ), s.agentPos.2 - n + 1)
  else none

/-- The extracted sub-grid `agent_view_grid` before rotation: row `i`,
column `j` holds a fresh `WorldObj` built from the type of the absolute
cell `(top_x + j, top_y + i)`, or a fresh Wall if that cell is out of
bounds. -/
def subGrid (s : MiniGridState) (tl : ℤ × ℤ) :
    Fin s.agentViewSize → Fin s.agentViewSize → WorldObj :=
  fun i j =>
    let x := tl.1 + (j : ℤ)
    let y := tl.2 + (i : ℤ)
    if 0 ≤ x ∧ x < s.width ∧ 0 ≤ y ∧ y < s.height then
      WorldObj.make (s.grid y x).ty
    else
      WorldObj.make .wall

/-- The number of counter-clockwise rotations applied: `agent_dir_ + 1`. -/
def rotCount (s : MiniGridState) : ℕ :=
  (s.agentDir + 1).toNat

/-- The rotated viewport: the sub-grid rotated `agent_dir_ + 1` times. -/
def viewGrid (s : MiniGridState) (tl : ℤ × ℤ) :
    Fin s.agentViewSize → Fin s.agentViewSize → WorldObj :=
  Nat.iterate (rotateCCW s.agentViewSize) (rotCount s) (subGrid s tl)

/-- Set entry `(j, i)` of a visibility mask. -/
def mset (m : ℕ → ℕ → Bool) (j i : ℕ) : ℕ → ℕ → Bool :=
  fun a b => if a = j ∧ b = i then true else m a b

/-- Bounds-guarded access to the rotated viewport, for the sweep loops
(whose indices always stay in range). -/
def viewAt (s : MiniGridState) (tl : ℤ × ℤ) (j i : ℕ) : WorldObj :=
  if h : j < s.agentViewSize ∧ i < s.agentViewSize then
    viewGrid s tl ⟨j, h.1⟩ ⟨i, h.2⟩
  else WorldObj.make .empty

/-- The left-to-right sweep over row `j`: for `i = 0 .. size-2`, a visible
see-through cell propagates visibility to `(j, i+1)` and, when `j > 0`,
to `(j-1, i+1)` and `(j-1, i)`. -/
def sweepLR (s : MiniGridState) (tl : ℤ × ℤ) (j : ℕ) (m : ℕ → ℕ → Bool) :
    ℕ → ℕ → Bool :=
  (List.range (s.agentViewSize - 1)).foldl
    (fun m i =>
      if m j i && (viewAt s tl j i).canSeeBehind then
        let m := mset m j (i + 1)
        if 0 < j then mset (mset m (j - 1) (i + 1)) (j - 1) i else m
      else m)
    m

/-- The right-to-left sweep over row `j`: for `i = size-1 .. 1`, a visible
see-through cell propagates visibility to `(j, i-1)` and, when `j > 0`,
to `(j-1, i-1)` and `(j-1, i)`. -/
def sweepRL (s : MiniGridState) (tl : ℤ × ℤ) (j : ℕ) (m : ℕ → ℕ → Bool) :
    ℕ → ℕ → Bool :=
  (((List.range (s.agentViewSize - 1)).map (fun t => t + 1)).reverse).foldl
    (fun m i =>
      if m j i && (viewAt s tl j i).canSeeBehind then
        let m := mset m j (i - 1)
        if 0 < j then mset (mset m (j - 1) (i - 1)) (j - 1) i else m
      else m)
    m

/-- The visibility mask: all-true when `see_through_walls_` is set;
otherwise seeded at the agent's rendered cell (bottom-center) and
propagated row by row from the bottom upwards, each row swept
left-to-right then right-to-left. -/
def visMask (s : MiniGridState) (tl : ℤ × ℤ) : ℕ → ℕ → Bool :=
  if s.seeThroughWalls then fun _ _ => true
  else
    ((List.range s.agentViewSize).reverse).foldl
      (fun m j => sweepRL s tl j (sweepLR s tl j m))
      (mset (fun _ _ => false) (s.agentViewSize - 1) (s.agentViewSize / 2))

/-- The viewport after occlusion: cells never marked visible are
overwritten with a fresh Empty object (in the `see_through_walls_` branch
no overwriting happens). -/
def viewOccl (s : MiniGridState) (tl : ℤ × ℤ) :
    Fin s.agentViewSize → Fin s.agentViewSize → WorldObj :=
  if s.seeThroughWalls then viewGrid s tl
  else fun i j =>
    if visMask s tl (i : ℕ) (j : ℕ) then viewGrid s tl i j
    else WorldObj.make .empty

/-- The final viewport: the agent's rendered cell (bottom row, center
column) is overwritten with the carried object, or a fresh Empty object
when nothing is carried. -/
def viewFinal (s : MiniGridState) (tl : ℤ × ℤ) :
    Fin s.agentViewSize → Fin s.agentViewSize → WorldObj :=
  fun i j =>
    if (i : ℕ) = s.agentViewSize - 1 ∧ (j : ℕ) = s.agentViewSize / 2 then
      if s.carrying.ty ≠ Ty.empty then s.carrying else WorldObj.make .empty
    else viewOccl s tl i j

/-- `MiniGridEnv::GenImage`.  The caller's tensor is modelled as a partial
map: `obs x y = some (t, c, st)` when the loop writes the three channels
`obs(x, y, 0..2)` (which happens exactly for in-range visible cells, read
from `agent_view_grid[y][x]` — the transpose of the external contract),
and `none` where the tensor is left untouched.  The fatal `CHECK(false)`
on an invalid direction is `none`. -/
def genImage (s : MiniGridState) : Option (ℕ → ℕ → Option (ℕ × ℕ × ℕ)) :=
  (topLeft s).map fun tl =>
    fun x y =>
      if hx : x < s.agentViewSize then
        if hy : y < s.agentViewSize then
          if visMask s tl y x then
            some (typeCode (viewFinal s tl ⟨y, hy⟩ ⟨x, hx⟩).ty,
                  colorCode (viewFinal s tl ⟨y, hy⟩ ⟨x, hx⟩).color,
                  stateCode (viewFinal s tl ⟨y, hy⟩ ⟨x, hx⟩))
          else none
        else none
      else none

/-- `GenImage` with the environment state threaded through: the method
body of the source assigns only local variables and the caller's tensor,
never a member field, so the state component of the result is the input
state unchanged. -/
def genImageS (s : MiniGridState) :
    Option (MiniGridState × (ℕ → ℕ → Option (ℕ × ℕ × ℕ))) :=
  (genImage s).map fun o => (s, o)

/-- Build a grid function from an association list of `((x, y), object)`
entries; unlisted cells are Empty. -/
def gridOf (l : List ((ℤ × ℤ) × WorldObj)) : ℤ → ℤ → WorldObj :=
  fun y x =>
    ((l.find? fun p => decide (p.1.1 = x) && decide (p.1.2 = y)).map
      fun p => p.2).getD (WorldObj.make .empty)

/-- A locked blue door. -/
def lockedBlueDoor : WorldObj :=
  .mk Ty.door Color.blue true false none

/-- A blue key. -/
def blueKey : WorldObj :=
  .mk Ty.key Color.blue false false none

/-- A 5×5 state for the render counterexample: agent at `(2, 2)` facing
North with a 3×3 viewport in see-through mode, a locked blue door at
`(1, 0)` inside the viewport. -/
def exC1 : MiniGridState where
  width := 5
  height := 5
  grid := gridOf [((1, 0), lockedBlueDoor)]
  agentPos := (2, 2)
  agentDir := 3
  carrying := WorldObj.make .empty
  stepCount := 0
  maxSteps := 100
  isDone := false
  agentViewSize := 3
  seeThroughWalls := true

/-- A 5×5 state with the agent at `(1, 1)` facing East at a locked blue
door in the forward cell `(2, 1)`, carrying a blue key. -/
def exC2 : MiniGridState where
  width := 5
  height := 5
  grid := gridOf [((2, 1), lockedBlueDoor)]
  agentPos := (1, 1)
  agentDir := 0
  carrying := blueKey
  stepCount := 0
  maxSteps := 100
  isDone := false
  agentViewSize := 7
  seeThroughWalls := false

/-- A 3×3 all-Empty state whose agent direction is 4 — outside `{0..3}` —
with an in-bounds, overlappable agent cell. -/
def exC3 : MiniGridState where
  width := 3
  height := 3
  grid := gridOf []
  agentPos := (1, 1)
  agentDir := 4
  carrying := WorldObj.make .empty
  stepCount := 7
  maxSteps := 100
  isDone := true
  agentViewSize := 7
  seeThroughWalls := false

/-- A 5×5 state one Forward away from the Goal on the last allowed step:
`step_count = 9`, `max_steps = 10`, Goal in the forward cell. -/
def exC4 : MiniGridState where
  width := 5
  height := 5
  grid := gridOf [((2, 1), WorldObj.make .goal)]
  agentPos := (1, 1)
  agentDir := 0
  carrying := WorldObj.make .empty
  stepCount := 9
  maxSteps := 10
  isDone := false
  agentViewSize := 7
  seeThroughWalls := false

/-- A 5×5 state that is already `done = true` while facing a Goal cell. -/
def exC5 : MiniGridState where
  width := 5
  height := 5
  grid := gridOf [((2, 1), WorldObj.make .goal)]
  agentPos := (1, 1)
  agentDir := 0
  carrying := WorldObj.make .empty
  stepCount := 1
  maxSteps := 10
  isDone := true
  agentViewSize := 7
  seeThroughWalls := false

/-- A 5×5 state with the agent facing a blue key in the forward cell,
carrying nothing. -/
def exC7 : MiniGridState where
  width := 5
  height := 5
  grid := gridOf [((2, 1), blueKey)]
  agentPos := (1, 1)
  agentDir := 0
  carrying := WorldObj.make .empty
  stepCount := 0
  maxSteps := 100
  isDone := false
  agentViewSize := 7
  seeThroughWalls := false

/-- A 3×3 state with a wall at `(1, 0)` and the agent at `(1, 1)`, used to
exercise the placement loop's rejections. -/
def exC8 : MiniGridState where
  width := 3
  height := 3
  grid := gridOf [((1, 0), WorldObj.make .wall)]
  agentPos := (1, 1)
  agentDir := 0
  carrying := WorldObj.make .empty
  stepCount := 0
  maxSteps := 100
  isDone := false
  agentViewSize := 3
  seeThroughWalls := false

/-- A 5×5 render state with occlusion enabled. -/
def exC9 : MiniGridState where
  width := 5
  height := 5
  grid := gridOf [((2, 1), WorldObj.make .wall)]
  agentPos := (2, 3)
  agentDir := 3
  carrying := blueKey
  stepCount := 4
  maxSteps := 100
  isDone := false
  agentViewSize := 3
  seeThroughWalls := false

/-- A 5×5 state facing a locked blue door while carrying the matching
key: toggling unlocks the door and must leave the key in hand. -/
def exC10 : MiniGridState where
  width := 5
  height := 5
  grid := gridOf [((2, 1), lockedBlueDoor)]
  agentPos := (1, 1)
  agentDir := 0
  carrying := blueKey
  stepCount := 3
  maxSteps := 100
  isDone := false
  agentViewSize := 7
  seeThroughWalls := false

theorem fwdPos_stepCount (s : MiniGridState) (c : ℤ) :
    fwdPos { s with stepCount := c } = fwdPos s := rfl

theorem fwdPos_congr (s t : MiniGridState) (h1 : t.agentDir = s.agentDir)
    (h2 : t.agentPos = s.agentPos) : fwdPos t = fwdPos s := by
  unfold fwdPos
  rw [h1, h2]

theorem setGrid_grid_same (s : MiniGridState) (y x : ℤ) (o : WorldObj) :
    (setGrid s y x o).grid y x = o := by
  simp [setGrid]

theorem stepWrap_fst_grid (r : MiniGridState × ℚ) :
    (stepWrap r).1.grid = r.1.grid := by
  unfold stepWrap; split_ifs <;> rfl

theorem stepWrap_fst_carrying (r : MiniGridState × ℚ) :
    (stepWrap r).1.carrying = r.1.carrying := by
  unfold stepWrap; split_ifs <;> rfl

theorem stepWrap_fst_agentPos (r : MiniGridState × ℚ) :
    (stepWrap r).1.agentPos = r.1.agentPos := by
  unfold stepWrap; split_ifs <;> rfl

theorem stepWrap_fst_agentDir (r : MiniGridState × ℚ) :
    (stepWrap r).1.agentDir = r.1.agentDir := by
  unfold stepWrap; split_ifs <;> rfl

theorem stepWrap_fst_width (r : MiniGridState × ℚ) :
    (stepWrap r).1.width = r.1.width := by
  unfold stepWrap; split_ifs <;> rfl

theorem stepWrap_fst_height (r : MiniGridState × ℚ) :
    (stepWrap r).1.height = r.1.height := by
  unfold stepWrap; split_ifs <;> rfl

theorem stepWrap_snd (r : MiniGridState × ℚ) : (stepWrap r).2 = r.2 := by
  unfold stepWrap; split_ifs <;> rfl

theorem stepWrap_isDone_true (r : MiniGridState × ℚ) (h : r.1.isDone = true) :
    (stepWrap r).1.isDone = true := by
  unfold stepWrap; split_ifs
  · rfl
  · exact h

theorem miniGridStep_some_eq (s0 : MiniGridState) (act : Act) (fwd : ℤ × ℤ)
    (hf : fwdPos s0 = some fwd)
    (hb : 0 ≤ fwd.1 ∧ fwd.1 < s0.width ∧ 0 ≤ fwd.2 ∧ fwd.2 < s0.height) :
    miniGridStep s0 act =
      some (stepWrap (stepCore { s0 with stepCount := s0.stepCount + 1 } fwd act)) := by
  have hf1 : fwdPos { s0 with stepCount := s0.stepCount + 1 } = some fwd := hf
  simp only [miniGridStep, hf1, Option.some_bind]
  rw [if_pos hb]

theorem miniGridStep_some_inv (s0 : MiniGridState) (act : Act)
    (p : MiniGridState × ℚ) (h : miniGridStep s0 act = some p) :
    ∃ fwd, fwdPos s0 = some fwd ∧
      (0 ≤ fwd.1 ∧ fwd.1 < s0.width ∧ 0 ≤ fwd.2 ∧ fwd.2 < s0.height) ∧
      p = stepWrap (stepCore { s0 with stepCount := s0.stepCount + 1 } fwd act) := by
  cases hf : fwdPos { s0 with stepCount := s0.stepCount + 1 } with
  | none => simp only [miniGridStep, hf, Option.none_bind] at h; cases h
  | some fwd =>
    refine ⟨fwd, hf, ?_⟩
    simp only [miniGridStep, hf, Option.some_bind] at h
    split_ifs at h with hb
    · cases h; exact ⟨hb, rfl⟩

/-- Claim C6: applying the viewport rotation step
`new[size-1-x][y] = old[y][x]` four times to any `view_size × view_size`
grid yields the original grid: `rotate⁴ = identity` for all grids. -/
theorem rotate_four_identity {α : Type} (n : ℕ) (g : Fin n → Fin n → α) :
    rotateCCW n (rotateCCW n (rotateCCW n (rotateCCW n g))) = g := by
  funext r c
  simp [rotateCCW, Fin.rev_rev]

theorem stepCore_toggle_carrying (s1 : MiniGridState) (fwd : ℤ × ℤ) :
    (stepCore s1 fwd Act.toggle).1.carrying = s1.carrying := by
  unfold stepCore
  cases hcont : (s1.grid fwd.2 fwd.1).contains <;>
    simp only [hcont] <;> split_ifs <;> rfl

/-- Claim C10: `Step(Toggle)` never changes the carried object; in
particular, unlocking a locked door with a matching-color key leaves the
key in the agent's hand (the key is not consumed). -/
theorem toggle_preserves_carrying (s : MiniGridState) (p : MiniGridState × ℚ)
    (h : miniGridStep s Act.toggle = some p) : p.1.carrying = s.carrying := by
  obtain ⟨fwd, -, -, hp⟩ := miniGridStep_some_inv s Act.toggle p h
  subst hp
  rw [stepWrap_fst_carrying]
  exact stepCore_toggle_carrying { s with stepCount := s.stepCount + 1 } fwd

/-- Witness for Claim C10: toggling the locked blue door while carrying
the blue key leaves the carried key unchanged. -/
theorem toggle_preserves_carrying_witness :
    (miniGridStep exC10 Act.toggle).map (fun p => p.1.carrying) =
      some exC10.carrying := by
  cases hp : miniGridStep exC10 Act.toggle with
  | none =>
    have hs : (miniGridStep exC10 Act.toggle).isSome = true := rfl
    rw [hp] at hs; cases hs
  | some p =>
    have := toggle_preserves_carrying exC10 p hp
    simp [this]

/-- Claim C2: with a locked, closed Door in the forward cell,
`Step(Toggle)` while carrying a Key of the door's color sets the door's
open flag and clears its locked flag; with no key or a key of another
color, the door cell is left unchanged and its open flag stays false. -/
theorem toggle_locked_door (s : MiniGridState) (fwd : ℤ × ℤ)
    (hf : fwdPos s = some fwd)
    (hb : 0 ≤ fwd.1 ∧ fwd.1 < s.width ∧ 0 ≤ fwd.2 ∧ fwd.2 < s.height)
    (hd : (s.grid fwd.2 fwd.1).ty = Ty.door)
    (hl : (s.grid fwd.2 fwd.1).doorLocked = true)
    (ho : (s.grid fwd.2 fwd.1).doorOpen = false) :
    ∃ p, miniGridStep s Act.toggle = some p ∧
      ((s.carrying.ty = Ty.key ∧ s.carrying.color = (s.grid fwd.2 fwd.1).color →
          (p.1.grid fwd.2 fwd.1).doorOpen = true ∧
          (p.1.grid fwd.2 fwd.1).doorLocked = false) ∧
       (¬(s.carrying.ty = Ty.key ∧ s.carrying.color = (s.grid fwd.2 fwd.1).color) →
          p.1.grid fwd.2 fwd.1 = s.grid fwd.2 fwd.1 ∧
          (p.1.grid fwd.2 fwd.1).doorOpen = false)) := by
  rw [miniGridStep_some_eq s Act.toggle fwd hf hb]
  refine ⟨_, rfl, ?_, ?_⟩
  · intro hk
    have hcore : stepCore { s with stepCount := s.stepCount + 1 } fwd Act.toggle
        = (setGrid { s with stepCount := s.stepCount + 1 } fwd.2 fwd.1
            ((s.grid fwd.2 fwd.1).setDoorOpen true), 0) := by
      unfold stepCore
      dsimp only
      rw [if_pos hd, if_pos hl, if_pos hk]
    rw [stepWrap_fst_grid, hcore]
    simp [setGrid, WorldObj.setDoorOpen, WorldObj.doorOpen, WorldObj.doorLocked]
  · intro hk
    have hcore : stepCore { s with stepCount := s.stepCount + 1 } fwd Act.toggle
        = ({ s with stepCount := s.stepCount + 1 }, 0) := by
      unfold stepCore
      dsimp only
      rw [if_pos hd, if_pos hl, if_neg hk]
    rw [stepWrap_fst_grid, hcore]
    exact ⟨rfl, ho⟩

/-- Witness for Claim C2 at a concrete state: agent facing a locked blue
door while carrying a blue key. -/
theorem toggle_locked_door_witness :
    ∃ p, miniGridStep exC2 Act.toggle = some p ∧
      ((exC2.carrying.ty = Ty.key ∧
          exC2.carrying.color = (exC2.grid (2, 1).2 (2, 1).1).color →
          (p.1.grid (2, 1).2 (2, 1).1).doorOpen = true ∧
          (p.1.grid (2, 1).2 (2, 1).1).doorLocked = false) ∧
       (¬(exC2.carrying.ty = Ty.key ∧
          exC2.carrying.color = (exC2.grid (2, 1).2 (2, 1).1).color) →
          p.1.grid (2, 1).2 (2, 1).1 = exC2.grid (2, 1).2 (2, 1).1 ∧
          (p.1.grid (2, 1).2 (2, 1).1).doorOpen = false)) :=
  toggle_locked_door exC2 (2, 1) rfl (by decide) rfl rfl rfl

/-- Claim C3 (amended): after `GenGrid`, Reset aborts iff the agent
position has a negative coordinate, or the direction is negative, or the
cell at the agent's position cannot be overlapped; the upper bounds of
the position and of the direction are not checked (direction 4 passes).
On success `step_count = 0`, `done = false`, and the carried object is
Empty. -/
theorem reset_check_characterization (s : MiniGridState) :
    (miniGridReset s = none ↔
      s.agentPos.1 < 0 ∨ s.agentPos.2 < 0 ∨ s.agentDir < 0 ∨
        (s.grid s.agentPos.2 s.agentPos.1).canOverlap = false) ∧
    (∀ t, miniGridReset s = some t →
      t.stepCount = 0 ∧ t.isDone = false ∧ t.carrying = WorldObj.make .empty) := by
  unfold miniGridReset
  dsimp only
  by_cases hc : 0 ≤ s.agentPos.1 ∧ 0 ≤ s.agentPos.2 ∧ 0 ≤ s.agentDir ∧
      (s.grid s.agentPos.2 s.agentPos.1).canOverlap = true
  · rw [if_pos hc]
    constructor
    · constructor
      · intro h
        cases h
      · intro h
        exfalso
        rcases h with h | h | h | h
        · exact absurd hc.1 (not_le.mpr h)
        · exact absurd hc.2.1 (not_le.mpr h)
        · exact absurd hc.2.2.1 (not_le.mpr h)
        · rw [hc.2.2.2] at h
          cases h
    · intro t ht
      cases ht
      exact ⟨rfl, rfl, rfl⟩
  · rw [if_neg hc]
    constructor
    · constructor
      · intro _
        by_contra hcon
        push_neg at hcon
        refine hc ⟨hcon.1, hcon.2.1, hcon.2.2.1, ?_⟩
        simpa using hcon.2.2.2
      · intro _
        rfl
    · intro t ht
      cases ht

/-- Counterexample for Claim C3: a layout whose direction is 4 — outside
`{0,1,2,3}`, so the claim demands an abort — on which Reset nevertheless
completes, because the source checks only `agent_dir_ >= 0`. -/
theorem reset_check_counterexample :
    (exC3.agentDir = 0 ∨ exC3.agentDir = 1 ∨ exC3.agentDir = 2 ∨
      exC3.agentDir = 3 → False) ∧
    (miniGridReset exC3).isSome = true :=
  ⟨by decide, rfl⟩

/-- Witness for Claim C3's amended characterization at a concrete
state. -/
theorem reset_check_witness :
    (miniGridReset exC3 = none ↔
      exC3.agentPos.1 < 0 ∨ exC3.agentPos.2 < 0 ∨ exC3.agentDir < 0 ∨
        (exC3.grid exC3.agentPos.2 exC3.agentPos.1).canOverlap = false) ∧
    (∀ t, miniGridReset exC3 = some t →
      t.stepCount = 0 ∧ t.isDone = false ∧ t.carrying = WorldObj.make .empty) :=
  reset_check_characterization exC3

/-- Claim C8: whenever the placement loop returns, the returned cell lies
in the inclusive rectangle the draws were taken from, its grid cell is
Empty-typed and it is not the agent's position. -/
theorem placeObject_correct (s : MiniGridState) (sx sy ex2 ey : ℤ)
    (draws : List (ℤ × ℤ))
    (hd : ∀ q ∈ draws, sx ≤ q.1 ∧ q.1 ≤ ex2 ∧ sy ≤ q.2 ∧ q.2 ≤ ey)
    (x y : ℤ) (h : placeObjectLoop s draws = some (x, y)) :
    (sx ≤ x ∧ x ≤ ex2 ∧ sy ≤ y ∧ y ≤ ey) ∧
    (s.grid y x).ty = Ty.empty ∧
    ¬(s.agentPos.1 = x ∧ s.agentPos.2 = y) := by
  induction draws generalizing x y with
  | nil => cases h
  | cons q rest ih =>
    obtain ⟨qx, qy⟩ := q
    unfold placeObjectLoop at h
    split_ifs at h with h1 h2
    · exact ih (fun r hr => hd r (List.mem_cons_of_mem _ hr)) x y h
    · exact ih (fun r hr => hd r (List.mem_cons_of_mem _ hr)) x y h
    · cases h
      refine ⟨hd (x, y) (List.mem_cons_self _ _), ?_, h2⟩
      simpa using h1

/-- Witness for Claim C8: a concrete draw stream in the rectangle
`[0,2]×[0,2]` whose first two draws are rejected (wall cell, agent cell)
and whose third is accepted. -/
theorem placeObject_correct_witness :
    (((0:ℤ) ≤ 0 ∧ (0:ℤ) ≤ 2 ∧ (0:ℤ) ≤ 0 ∧ (0:ℤ) ≤ 2) ∧
    (exC8.grid 0 0).ty = Ty.empty ∧
    ¬(exC8.agentPos.1 = 0 ∧ exC8.agentPos.2 = 0)) :=
  placeObject_correct exC8 0 0 2 2 [(1, 0), (1, 1), (0, 0)] (by decide) 0 0 rfl

/-- Claim C9: `GenImage` never mutates the environment state: whenever it
runs, the state component of the state-threaded rendering is the input
state unchanged; only the output tensor is produced. -/
theorem genImage_preserves_state (s : MiniGridState)
    (h : (genImage s).isSome = true) :
    (genImageS s).map Prod.fst = some s := by
  cases hg : genImage s with
  | none => rw [hg] at h; cases h
  | some o => simp [genImageS, hg]

/-- Witness for Claim C9 at a concrete render state. -/
theorem genImage_preserves_state_witness :
    (genImageS exC9).map Prod.fst = some exC9 ∧
      (genImage exC9).isSome = true :=
  ⟨genImage_preserves_state exC9 rfl, rfl⟩

/-- Claim C4 (amended): reaching a Goal via `Step(Forward)` returns, in
exact rational arithmetic, exactly `1 - 0.9 * (step_count / max_steps)`;
this value is strictly decreasing in the step count and lies in the
half-open interval `[0.1, 1)` — not `(0.1, 1]` — for `1 ≤ s ≤ M`. -/
theorem goal_reward_formula (s : MiniGridState) (fwd : ℤ × ℤ)
    (hf : fwdPos s = some fwd)
    (hb : 0 ≤ fwd.1 ∧ fwd.1 < s.width ∧ 0 ≤ fwd.2 ∧ fwd.2 < s.height)
    (hg : (s.grid fwd.2 fwd.1).ty = Ty.goal) :
    (miniGridStep s Act.forward).map Prod.snd =
      some (goalReward (s.stepCount + 1) s.maxSteps) ∧
    (∀ a b M : ℤ, 0 < M → a < b → goalReward b M < goalReward a M) ∧
    (∀ t M : ℤ, 1 ≤ t → t ≤ M →
      1 / 10 ≤ goalReward t M ∧ goalReward t M < 1) := by
  refine ⟨?_, ?_, ?_⟩
  · rw [miniGridStep_some_eq s Act.forward fwd hf hb]
    have hov : (s.grid fwd.2 fwd.1).canOverlap = true := by
      unfold WorldObj.canOverlap
      rw [hg]
    have hcore : stepCore { s with stepCount := s.stepCount + 1 } fwd Act.forward
        = ({ s with stepCount := s.stepCount + 1, agentPos := fwd, isDone := true },
           goalReward (s.stepCount + 1) s.maxSteps) := by
      unfold stepCore
      dsimp only
      rw [if_pos hov]
      dsimp only
      rw [if_pos hg]
    rw [hcore]
    simp [stepWrap_snd]
  · intro a b M hM hab
    unfold goalReward
    have hMQ : (0 : ℚ) < (M : ℚ) := by exact_mod_cast hM
    have h1 : (a : ℚ) / (M : ℚ) < (b : ℚ) / (M : ℚ) := by
      apply div_lt_div_of_pos_right ?_ hMQ
      exact_mod_cast hab
    have h2 : (9 : ℚ) / 10 * ((a : ℚ) / (M : ℚ)) <
        (9 : ℚ) / 10 * ((b : ℚ) / (M : ℚ)) := by
      apply mul_lt_mul_of_pos_left h1
      norm_num
    linarith
  · intro t M ht htM
    unfold goalReward
    have hM : (0 : ℚ) < (M : ℚ) := by
      exact_mod_cast lt_of_lt_of_le Int.zero_lt_one (le_trans ht htM)
    have h01 : (t : ℚ) / (M : ℚ) ≤ 1 := by
      rw [div_le_one hM]
      exact_mod_cast htM
    have h0 : 0 < (t : ℚ) / (M : ℚ) := by
      apply div_pos ?_ hM
      exact_mod_cast lt_of_lt_of_le Int.zero_lt_one ht
    constructor <;> linarith

/-- Witness for Claim C4's amended statement at a concrete state reaching
the Goal on the last allowed step. -/
theorem goal_reward_formula_witness :
    (miniGridStep exC4 Act.forward).map Prod.snd =
      some (goalReward (exC4.stepCount + 1) exC4.maxSteps) :=
  (goal_reward_formula exC4 (2, 1) rfl (by decide) rfl).1

/-- Counterexample for Claim C4: reaching the Goal at `s = M = 10` yields
reward exactly `1/10`, which is not in the claimed open-bottom interval
`(0.1, 1]`. -/
theorem goal_reward_counterexample :
    (miniGridStep exC4 Act.forward).map Prod.snd = some (goalReward 10 10) ∧
    goalReward 10 10 = 1 / 10 ∧
    (1 : ℚ) / 10 ∉ Set.Ioc ((1 : ℚ) / 10) 1 := by
  refine ⟨rfl, ?_, ?_⟩
  · unfold goalReward
    norm_num
  · simp [Set.mem_Ioc]

theorem stepCore_snd_done_irrel (s : MiniGridState) (fwd : ℤ × ℤ) (a : Act)
    (d e : Bool) :
    (stepCore { s with isDone := d } fwd a).2 =
      (stepCore { s with isDone := e } fwd a).2 := by
  cases a with
  | left => rfl
  | right => rfl
  | forward => dsimp only [stepCore]; split_ifs <;> rfl
  | pickup => dsimp only [stepCore]; split_ifs <;> rfl
  | drop => dsimp only [stepCore]; split_ifs <;> rfl
  | toggle =>
    dsimp only [stepCore]
    cases hcont : (s.grid fwd.2 fwd.1).contains <;> simp only [hcont] <;>
      split_ifs <;> rfl
  | done => rfl

theorem stepCore_isDone_latch (s1 : MiniGridState) (fwd : ℤ × ℤ) (a : Act)
    (h : s1.isDone = true) : (stepCore s1 fwd a).1.isDone = true := by
  cases a with
  | left => exact h
  | right => exact h
  | forward =>
    dsimp only [stepCore]
    split_ifs <;> first | rfl | exact h
  | pickup => dsimp only [stepCore]; split_ifs <;> exact h
  | drop => dsimp only [stepCore]; split_ifs <;> exact h
  | toggle =>
    dsimp only [stepCore]
    cases hcont : (s1.grid fwd.2 fwd.1).contains <;> simp only [hcont] <;>
      split_ifs <;> exact h
  | done => exact h

/-- Claim C5 (amended): `Step` does not consult the `done` flag — the
reward of a `Step` called with `done = true` equals the reward of the same
`Step` with `done = false`, so a `Step` after termination can still return
a nonzero reward; `done` itself is a latch that `Step` never clears. -/
theorem step_ignores_done (s : MiniGridState) (a : Act) :
    ((miniGridStep { s with isDone := true } a).map Prod.snd =
      (miniGridStep { s with isDone := false } a).map Prod.snd) ∧
    (∀ p, miniGridStep { s with isDone := true } a = some p →
      p.1.isDone = true) := by
  constructor
  · cases hf : fwdPos s with
    | none =>
      have hnone : ∀ d : Bool, miniGridStep { s with isDone := d } a = none := by
        intro d
        have hfd : fwdPos { { s with isDone := d } with
            stepCount := { s with isDone := d }.stepCount + 1 } = none := hf
        simp only [miniGridStep, hfd, Option.none_bind]
      rw [hnone true, hnone false]
    | some fwd =>
      by_cases hb : 0 ≤ fwd.1 ∧ fwd.1 < s.width ∧ 0 ≤ fwd.2 ∧ fwd.2 < s.height
      · have e1 := miniGridStep_some_eq { s with isDone := true } a fwd hf hb
        have e2 := miniGridStep_some_eq { s with isDone := false } a fwd hf hb
        rw [e1, e2]
        simp only [Option.map_some']
        rw [stepWrap_snd, stepWrap_snd]
        exact congrArg some
          (stepCore_snd_done_irrel { s with stepCount := s.stepCount + 1 }
            fwd a true false)
      · have hnone : ∀ d : Bool, miniGridStep { s with isDone := d } a = none := by
          intro d
          have hfd : fwdPos { { s with isDone := d } with
              stepCount := { s with isDone := d }.stepCount + 1 } = some fwd := hf
          simp only [miniGridStep, hfd, Option.some_bind]
          rw [if_neg]
          exact hb
        rw [hnone true, hnone false]
  · intro p hp
    obtain ⟨fwd, hf2, hb2, hpe⟩ :=
      miniGridStep_some_inv { s with isDone := true } a p hp
    subst hpe
    apply stepWrap_isDone_true
    apply stepCore_isDone_latch
    rfl

/-- Witness for Claim C5's amended statement: a finished episode facing
the Goal still earns the Goal reward on `Forward`, and `done` stays set. -/
theorem step_ignores_done_witness :
    ((miniGridStep { exC5 with isDone := true } Act.forward).map Prod.snd =
      (miniGridStep { exC5 with isDone := false } Act.forward).map Prod.snd) ∧
    (∀ p, miniGridStep { exC5 with isDone := true } Act.forward = some p →
      p.1.isDone = true) :=
  step_ignores_done exC5 Act.forward

/-- Counterexample for Claim C5: `exC5` already has `done = true`, yet
`Step(Forward)` onto the Goal returns the reward
`goalReward 2 10 = 41/50 ≠ 0`. -/
theorem step_done_counterexample :
    exC5.isDone = true ∧
    (miniGridStep exC5 Act.forward).map Prod.snd = some (goalReward 2 10) ∧
    goalReward 2 10 ≠ 0 := by
  refine ⟨rfl, rfl, ?_⟩
  unfold goalReward
  norm_num

theorem canPickup_ty_ne_empty (o : WorldObj) (h : o.canPickup = true) :
    o.ty ≠ Ty.empty := by
  unfold WorldObj.canPickup at h
  intro he
  rw [he] at h
  cases h

/-- Claim C7: from a state carrying Empty and facing a pickable object,
`Step(Pickup)` followed by `Step(Drop)` toward the same (now Empty)
forward cell restores the forward cell's original content and leaves the
carried object Empty. -/
theorem pickup_drop_roundtrip (s : MiniGridState) (fwd : ℤ × ℤ)
    (hf : fwdPos s = some fwd)
    (hb : 0 ≤ fwd.1 ∧ fwd.1 < s.width ∧ 0 ≤ fwd.2 ∧ fwd.2 < s.height)
    (hc : s.carrying.ty = Ty.empty)
    (hp : (s.grid fwd.2 fwd.1).canPickup = true) :
    ∃ p q, miniGridStep s Act.pickup = some p ∧
      miniGridStep p.1 Act.drop = some q ∧
      q.1.grid fwd.2 fwd.1 = s.grid fwd.2 fwd.1 ∧
      q.1.carrying = WorldObj.make .empty := by
  have e1 := miniGridStep_some_eq s Act.pickup fwd hf hb
  have hcore1 : stepCore { s with stepCount := s.stepCount + 1 } fwd Act.pickup
      = (setGrid { { s with stepCount := s.stepCount + 1 } with
          carrying := s.grid fwd.2 fwd.1 } fwd.2 fwd.1 (WorldObj.make .empty),
         0) := by
    unfold stepCore
    dsimp only
    rw [if_pos ⟨hc, hp⟩]
  set u := stepWrap (stepCore { s with stepCount := s.stepCount + 1 }
    fwd Act.pickup) with hu
  have hucar : u.1.carrying = s.grid fwd.2 fwd.1 := by
    rw [hu, stepWrap_fst_carrying, hcore1]
    rfl
  have hugrid : u.1.grid fwd.2 fwd.1 = WorldObj.make .empty := by
    rw [hu, stepWrap_fst_grid, hcore1]
    exact setGrid_grid_same _ _ _ _
  have hudir : u.1.agentDir = s.agentDir := by
    rw [hu, stepWrap_fst_agentDir, hcore1]
    rfl
  have hupos : u.1.agentPos = s.agentPos := by
    rw [hu, stepWrap_fst_agentPos, hcore1]
    rfl
  have huw : u.1.width = s.width := by
    rw [hu, stepWrap_fst_width, hcore1]
    rfl
  have huh : u.1.height = s.height := by
    rw [hu, stepWrap_fst_height, hcore1]
    rfl
  clear hu
  have hf2 : fwdPos u.1 = some fwd := by
    rw [fwdPos_congr s u.1 hudir hupos, hf]
  have hb2 : 0 ≤ fwd.1 ∧ fwd.1 < u.1.width ∧ 0 ≤ fwd.2 ∧ fwd.2 < u.1.height := by
    rw [huw, huh]
    exact hb
  have e2 := miniGridStep_some_eq u.1 Act.drop fwd hf2 hb2
  have hcore2 : stepCore { u.1 with stepCount := u.1.stepCount + 1 } fwd Act.drop
      = ({ setGrid { u.1 with stepCount := u.1.stepCount + 1 }
            fwd.2 fwd.1 u.1.carrying with carrying := WorldObj.make .empty },
         0) := by
    unfold stepCore
    dsimp only
    rw [if_pos]
    constructor
    · show u.1.carrying.ty ≠ Ty.empty
      rw [hucar]
      exact canPickup_ty_ne_empty _ hp
    · show (u.1.grid fwd.2 fwd.1).ty = Ty.empty
      rw [hugrid]
      rfl
  refine ⟨u, _, e1, e2, ?_, ?_⟩
  · rw [stepWrap_fst_grid, hcore2]
    show (setGrid { u.1 with stepCount := u.1.stepCount + 1 }
      fwd.2 fwd.1 u.1.carrying).grid fwd.2 fwd.1 = s.grid fwd.2 fwd.1
    rw [setGrid_grid_same]
    exact hucar
  · rw [stepWrap_fst_carrying, hcore2]

/-- Witness for Claim C7 at a concrete state: pick up the blue key ahead
and drop it back. -/
theorem pickup_drop_roundtrip_witness :
    ∃ p q, miniGridStep exC7 Act.pickup = some p ∧
      miniGridStep p.1 Act.drop = some q ∧
      q.1.grid (2, 1).2 (2, 1).1 = exC7.grid (2, 1).2 (2, 1).1 ∧
      q.1.carrying = WorldObj.make .empty :=
  pickup_drop_roundtrip exC7 (2, 1) rfl (by decide) rfl rfl

theorem iterate_rotateCCW_apply {α : Type} (n k : ℕ) (g : Fin n → Fin n → α)
    (r c : Fin n) :
    Nat.iterate (rotateCCW n) k g r c =
      g (Nat.iterate rotStep k (r, c)).1 (Nat.iterate rotStep k (r, c)).2 := by
  induction k generalizing g with
  | zero => rfl
  | succ k ih =>
    rw [Function.iterate_succ_apply, ih (rotateCCW n g),
      Function.iterate_succ_apply']
    rfl

theorem viewGrid_apply (s : MiniGridState) (tl : ℤ × ℤ)
    (r c : Fin s.agentViewSize) :
    viewGrid s tl r c =
      subGrid s tl (Nat.iterate rotStep (rotCount s) (r, c)).1
        (Nat.iterate rotStep (rotCount s) (r, c)).2 :=
  iterate_rotateCCW_apply s.agentViewSize (rotCount s) (subGrid s tl) r c

theorem genImage_some (s : MiniGridState) (tl : ℤ × ℤ)
    (h : topLeft s = some tl) :
    genImage s = some (fun x y =>
      if hx : x < s.agentViewSize then
        if hy : y < s.agentViewSize then
          if visMask s tl y x then
            some (typeCode (viewFinal s tl ⟨y, hy⟩ ⟨x, hx⟩).ty,
                  colorCode (viewFinal s tl ⟨y, hy⟩ ⟨x, hx⟩).color,
                  stateCode (viewFinal s tl ⟨y, hy⟩ ⟨x, hx⟩))
          else none
        else none
      else none) := by
  rw [genImage, h, Option.map_some']

theorem viewFinal_agent (s : MiniGridState) (tl : ℤ × ℤ)
    (i j : Fin s.agentViewSize)
    (hag : (i : ℕ) = s.agentViewSize - 1 ∧ (j : ℕ) = s.agentViewSize / 2) :
    viewFinal s tl i j =
      if s.carrying.ty ≠ Ty.empty then s.carrying else WorldObj.make .empty := by
  unfold viewFinal
  rw [if_pos hag]

theorem viewFinal_not_agent (s : MiniGridState) (tl : ℤ × ℤ)
    (i j : Fin s.agentViewSize)
    (hag : ¬((i : ℕ) = s.agentViewSize - 1 ∧ (j : ℕ) = s.agentViewSize / 2))
    (hv : visMask s tl (i : ℕ) (j : ℕ) = true) :
    viewFinal s tl i j = viewGrid s tl i j := by
  unfold viewFinal
  rw [if_neg hag]
  unfold viewOccl
  split_ifs with hsee
  · rfl
  · dsimp only
    rw [if_pos hv]

/-- The absolute-grid object type that viewport position (row `y`,
column `x`) of the rendered image corresponds to: undoing the
`agent_dir_ + 1` counter-clockwise rotations maps `(y, x)` back to a
sub-grid index whose absolute cell is offset from the viewport's top-left
corner; out-of-bounds cells read as Wall.  This is the reference map the
rendering is compared against. -/
def cellTy (s : MiniGridState) (tl : ℤ × ℤ) (y x : ℕ)
    (hy : y < s.agentViewSize) (hx : x < s.agentViewSize) : Ty :=
  let q := Nat.iterate rotStep (rotCount s)
    ((⟨y, hy⟩ : Fin s.agentViewSize), (⟨x, hx⟩ : Fin s.agentViewSize))
  let gx : ℤ := tl.1 + ((q.2 : ℕ) : ℤ)
  let gy : ℤ := tl.2 + ((q.1 : ℕ) : ℤ)
  if 0 ≤ gx ∧ gx < s.width ∧ 0 ≤ gy ∧ gy < s.height then (s.grid gy gx).ty
  else Ty.wall

theorem subGrid_eq_make (s : MiniGridState) (tl : ℤ × ℤ)
    (i j : Fin s.agentViewSize) :
    subGrid s tl i j = WorldObj.make (
      if 0 ≤ tl.1 + ((j : ℕ) : ℤ) ∧ tl.1 + ((j : ℕ) : ℤ) < s.width ∧
         0 ≤ tl.2 + ((i : ℕ) : ℤ) ∧ tl.2 + ((i : ℕ) : ℤ) < s.height
      then (s.grid (tl.2 + ((i : ℕ) : ℤ)) (tl.1 + ((j : ℕ) : ℤ))).ty
      else Ty.wall) := by
  unfold subGrid
  dsimp only
  split_ifs <;> rfl

/-- Claim C1 (amended): for every cell the renderer marks visible,
`GenImage` writes at `obs[x][y]`: at the agent's own rendered cell
(bottom row, center column) the type, color and state of the carried
object (or of a fresh Empty object when carrying nothing) — not the
underlying grid cell; at every other visible cell, channel 0 is the type
code of the corresponding absolute grid cell (Wall for out-of-bounds
padding), while channels 1 and 2 hold the color and state of a freshly
constructed object of that type — the default color and the
unlocked-closed door state — not the cell's true color and interaction
state, because the viewport extraction copies only `GetType()`. -/
theorem render_channels (s : MiniGridState)
    (obs : ℕ → ℕ → Option (ℕ × ℕ × ℕ)) (h : genImage s = some obs)
    (x y t c st : ℕ) (ho : obs x y = some (t, c, st)) :
    ∃ tl, topLeft s = some tl ∧
      ∃ hy : y < s.agentViewSize, ∃ hx : x < s.agentViewSize,
      ((y = s.agentViewSize - 1 ∧ x = s.agentViewSize / 2 ∧
        ((s.carrying.ty ≠ Ty.empty ∧ t = typeCode s.carrying.ty ∧
          c = colorCode s.carrying.color ∧ st = stateCode s.carrying) ∨
         (s.carrying.ty = Ty.empty ∧ t = typeCode Ty.empty ∧
          c = colorCode Color.unassigned ∧ st = 0))) ∨
       (¬(y = s.agentViewSize - 1 ∧ x = s.agentViewSize / 2) ∧
        t = typeCode (cellTy s tl y x hy hx) ∧
        c = colorCode Color.unassigned ∧
        st = stateCode (WorldObj.make (cellTy s tl y x hy hx)))) := by
  cases htl : topLeft s with
  | none => rw [genImage, htl] at h; cases h
  | some tl =>
    rw [genImage_some s tl htl] at h
    have hobs := (Option.some_inj.mp h).symm
    subst hobs
    clear h
    dsimp only at ho
    by_cases hxlt : x < s.agentViewSize
    case neg => rw [dif_neg hxlt] at ho; cases ho
    rw [dif_pos hxlt] at ho
    by_cases hylt : y < s.agentViewSize
    case neg => rw [dif_neg hylt] at ho; cases ho
    rw [dif_pos hylt] at ho
    by_cases hv : visMask s tl y x = true
    case neg => rw [if_neg hv] at ho; cases ho
    rw [if_pos hv] at ho
    rw [Option.some_inj, Prod.mk.injEq, Prod.mk.injEq] at ho
    obtain ⟨ht, hc, hst⟩ := ho
    refine ⟨tl, rfl, hylt, hxlt, ?_⟩
    by_cases hag : y = s.agentViewSize - 1 ∧ x = s.agentViewSize / 2
    · left
      have hvf := viewFinal_agent s tl ⟨y, hylt⟩ ⟨x, hxlt⟩ hag
      rw [hvf] at ht hc hst
      refine ⟨hag.1, hag.2, ?_⟩
      by_cases hcar : s.carrying.ty = Ty.empty
      · right
        rw [if_neg (by simp [hcar])] at ht hc hst
        exact ⟨hcar, by rw [← ht]; rfl, by rw [← hc]; rfl, by rw [← hst]; rfl⟩
      · left
        rw [if_pos (by simpa using hcar)] at ht hc hst
        exact ⟨hcar, ht.symm, hc.symm, hst.symm⟩
    · right
      have hvf := viewFinal_not_agent s tl ⟨y, hylt⟩ ⟨x, hxlt⟩
        (by simpa using hag) hv
      rw [hvf, viewGrid_apply] at ht hc hst
      have hsub : subGrid s tl
          (Nat.iterate rotStep (rotCount s)
            ((⟨y, hylt⟩ : Fin s.agentViewSize),
             (⟨x, hxlt⟩ : Fin s.agentViewSize))).1
          (Nat.iterate rotStep (rotCount s)
            ((⟨y, hylt⟩ : Fin s.agentViewSize),
             (⟨x, hxlt⟩ : Fin s.agentViewSize))).2
          = WorldObj.make (cellTy s tl y x hylt hxlt) :=
        subGrid_eq_make s tl _ _
      rw [hsub] at ht hc hst
      exact ⟨hag, by rw [← ht]; rfl, by rw [← hc]; rfl, hst.symm⟩

/-- Counterexample for Claim C1: in `exC1` the viewport cell rendered at
`obs[0][0]` corresponds to the absolute grid cell `(1, 0)`, which holds a
locked blue door (true color code 2, true state code 2); the renderer
writes channels `(4, 6, 1)` — type correct, but color `unassigned` and
state `closed` from the fresh `WorldObj(GetType())` copy — contradicting
"true color code ... in channel 1" and "true interaction-state code ...
in channel 2". -/
theorem render_channels_counterexample :
    topLeft exC1 = some (1, 0) ∧
    cellTy exC1 (1, 0) 0 0 (by decide) (by decide) = Ty.door ∧
    (genImage exC1).map (fun o => o 0 0) =
      some (some (typeCode Ty.door, colorCode Color.unassigned, 1)) ∧
    (exC1.grid 0 1).ty = Ty.door ∧
    (exC1.grid 0 1).color = Color.blue ∧
    stateCode (exC1.grid 0 1) = 2 ∧
    colorCode Color.unassigned ≠ colorCode Color.blue ∧
    (1 : ℕ) ≠ stateCode (exC1.grid 0 1) := by
  refine ⟨rfl, rfl, rfl, rfl, rfl, rfl, by decide, by decide⟩

/-- Witness for Claim C1's amended statement at the concrete state `exC1`
and the visible viewport cell `obs[0][0]`. -/
theorem render_channels_witness :
    ∃ tl, topLeft exC1 = some tl ∧
      ∃ hy : (0 : ℕ) < exC1.agentViewSize, ∃ hx : (0 : ℕ) < exC1.agentViewSize,
      (((0 : ℕ) = exC1.agentViewSize - 1 ∧ (0 : ℕ) = exC1.agentViewSize / 2 ∧
        ((exC1.carrying.ty ≠ Ty.empty ∧ (4 : ℕ) = typeCode exC1.carrying.ty ∧
          (6 : ℕ) = colorCode exC1.carrying.color ∧
          (1 : ℕ) = stateCode exC1.carrying) ∨
         (exC1.carrying.ty = Ty.empty ∧ (4 : ℕ) = typeCode Ty.empty ∧
          (6 : ℕ) = colorCode Color.unassigned ∧ (1 : ℕ) = 0))) ∨
       (¬((0 : ℕ) = exC1.agentViewSize - 1 ∧
            (0 : ℕ) = exC1.agentViewSize / 2) ∧
        (4 : ℕ) = typeCode (cellTy exC1 tl 0 0 hy hx) ∧
        (6 : ℕ) = colorCode Color.unassigned ∧
        (1 : ℕ) = stateCode (WorldObj.make (cellTy exC1 tl 0 0 hy hx)))) := by
  cases hg : genImage exC1 with
  | none =>
    have hs : (genImage exC1).isSome = true := rfl
    rw [hg] at hs; cases hs
  | some obs =>
    have ho : obs 0 0 = some (4, 6, 1) := by
      have h2 : (genImage exC1).map (fun o => o 0 0) = some (some (4, 6, 1)) :=
        rfl
      rw [hg] at h2
      simpa using h2
    exact render_channels exC1 obs hg 0 0 4 6 1 ho

end MiniGrid
